import Mathlib

/-!
Verification of the client-side session/authentication subsystem of the
Portpolio_Core_Front repository.

The repository contains two overlapping implementations of the session store:
`src/store/useAuthStore.ts` (JWT-decoding rehydration, mock login for
`mock@example.com`) and `src/store/auth-store.ts` (mock login for
`test@example.com`), plus the axios response interceptor in `src/lib/api.ts`
and the OAuth redirect-return path of the `LoginPage` draft.  Both stores are
embedded below, in the namespaces `useAuthStore` and `authStore`, as pure
state-passing functions over an explicit browser-storage model.  The zustand
`persist` middleware is modelled by a write of the `partialize`d state under
the key "auth-store" after every `set`.
-/

namespace PortfolioAuth

/-- Modelled from the spec: the error taxonomy of section 7.  The source code
defines no such type; it is declared here only to be compared with the error
values the code actually throws. -/
inductive ErrorKind where
  | InvalidCredentials
  | DuplicateAccount
  | ValidationError
  | Unauthorized
  | NetworkError
  | ProviderError
  | TokenExpired
deriving DecidableEq, Repr

/-- A JavaScript `Error` value as thrown by `throw new Error(message)`.
A plain `Error` carries a message; it has no `kind` property, so reading
`kind` on it yields `undefined` — the constructor used by the source
(`mkJsError`) therefore sets `kind := none`. -/
structure JsError where
  message : String
  kind : Option ErrorKind
deriving DecidableEq, Repr

/-- `new Error(message)`: sets the message and nothing else. -/
def mkJsError (message : String) : JsError := ⟨message, none⟩

/-- JavaScript truthiness of an optional string: `undefined`/`null` and the
empty string are falsy. -/
def truthy : Option String → Bool
  | none => false
  | some s => !s.isEmpty

/-- The failure object produced by a failed axios request, as inspected by the
catch blocks of the stores: `error.response?.data?.message`, `error.message`,
the `instanceof AxiosError` / `instanceof Error` checks, and
`error.response?.status`. -/
structure AxiosFailure where
  isAxiosError : Bool
  isError : Bool
  responseStatus : Option Nat
  responseDataMessage : Option String
  errMessage : Option String
deriving DecidableEq, Repr

/-- Outcome of an awaited backend call inside a store action: the parsed
response payload, or the failure object delivered to the catch block. -/
inductive BackendReply (α : Type) where
  | ok (payload : α)
  | fail (e : AxiosFailure)
deriving DecidableEq, Repr

namespace useAuthStore

/-- `User` of `src/store/useAuthStore.ts`. -/
inductive Provider where
  | EMAIL
  | GOOGLE
deriving DecidableEq, Repr

structure User where
  id : String
  email : String
  username : String
  avatar : Option String := none
  phone : Option String := none
  address : Option String := none
  city : Option String := none
  state : Option String := none
  zip : Option String := none
  provider : Option Provider := none
deriving DecidableEq, Repr

/-- Decoded JWT payload (`DecodedToken` in the source).  `exp` and `iat` are
numeric epoch-second claims; rationals model JavaScript numbers on the values
that occur. -/
structure DecodedToken where
  exp : ℚ
  iat : ℚ
  sub : String
deriving DecidableEq, Repr

/-- The subset of the state written to storage by `partialize`. -/
structure Snapshot where
  user : Option User
  token : Option String
  isAuthenticated : Bool
deriving DecidableEq, Repr

/-- In-memory zustand state of `useAuthStore`. -/
structure AuthState where
  user : Option User
  token : Option String
  isAuthenticated : Bool
  isLoading : Bool
deriving DecidableEq, Repr

end useAuthStore

namespace authStore

/-- `User` of `src/store/auth-store.ts` (field `name`, not `username`). -/
inductive Provider where
  | email
  | google
deriving DecidableEq, Repr

structure User where
  id : String
  name : String
  email : String
  avatar : Option String := none
  provider : Option Provider := none
deriving DecidableEq, Repr

/-- The subset of the state written to storage by `partialize`. -/
structure Snapshot where
  user : Option User
  token : Option String
  isAuthenticated : Bool
deriving DecidableEq, Repr

/-- In-memory zustand state of `auth-store`. -/
structure AuthState where
  user : Option User
  token : Option String
  isAuthenticated : Bool
  isLoading : Bool
deriving DecidableEq, Repr

end authStore

/-- A value stored in `localStorage`.  JSON encoding is injective, so a stored
JSON document is modelled by the structured value itself; raw token strings
are stored as `rawStr`. -/
inductive StoredValue where
  | rawStr (s : String)
  | uaSnap (sn : useAuthStore.Snapshot)
  | uaUser (u : useAuthStore.User)
  | asSnap (sn : authStore.Snapshot)
deriving DecidableEq, Repr

/-- `localStorage`: a finite map from key strings to stored values. -/
abbrev Storage := List (String × StoredValue)

/-- `localStorage.getItem`. -/
def getItem (k : String) : Storage → Option StoredValue
  | [] => none
  | (k', v) :: rest => if k' = k then some v else getItem k rest

/-- `localStorage.removeItem`. -/
def removeItem (k : String) (st : Storage) : Storage :=
  st.filter (fun p => p.1 ≠ k)

/-- `localStorage.setItem`: replaces any previous binding of the key. -/
def setItem (k : String) (v : StoredValue) (st : Storage) : Storage :=
  (k, v) :: removeItem k st

theorem getItem_setItem_same (k : String) (v : StoredValue) (st : Storage) :
    getItem k (setItem k v st) = some v := by
  simp [getItem, setItem]

theorem getItem_removeItem_same (k : String) (st : Storage) :
    getItem k (removeItem k st) = none := by
  induction st with
  | nil => rfl
  | cons p rest ih =>
    by_cases h : p.1 = k
    · simpa [removeItem, h] using ih
    · simpa [removeItem, getItem, h] using ih

theorem removeItem_cons (k : String) (p : String × StoredValue) (st : Storage) :
    removeItem k (p :: st) =
      if p.1 = k then removeItem k st else p :: removeItem k st := by
  by_cases hp : p.1 = k <;> simp [removeItem, hp]

theorem getItem_removeItem_other (k k' : String) (st : Storage) (h : k' ≠ k) :
    getItem k' (removeItem k st) = getItem k' st := by
  induction st with
  | nil => rfl
  | cons p rest ih =>
    rw [removeItem_cons]
    by_cases hp : p.1 = k
    · simp [hp, getItem, ih, Ne.symm h]
    · by_cases hq : p.1 = k'
      · simp [hp, getItem, hq, h]
      · simp [hp, getItem, hq, ih]

theorem getItem_setItem_other (k k' : String) (v : StoredValue) (st : Storage)
    (h : k' ≠ k) :
    getItem k' (setItem k v st) = getItem k' st := by
  simp [setItem, getItem, Ne.symm h, getItem_removeItem_other k k' st h]

/-- Extraction of the normalized message from a caught failure, shared shape
of the catch blocks: backend-supplied message first, then the error's own
message, then a per-operation fallback, with the `instanceof` guards of
`useAuthStore.ts`. -/
def errMessageOf (e : AxiosFailure) (fallback : String) : String :=
  if e.isAxiosError && truthy e.responseDataMessage then
    e.responseDataMessage.getD ""
  else if e.isError && truthy e.errMessage then
    e.errMessage.getD ""
  else fallback

/-- Message extraction of `auth-store.ts` (no `instanceof` guards):
`(error as any).response?.data?.message || error.message || fallback`. -/
def errMessageOfAS (e : AxiosFailure) (fallback : String) : String :=
  if truthy e.responseDataMessage then e.responseDataMessage.getD ""
  else if truthy e.errMessage then e.errMessage.getD ""
  else fallback

namespace useAuthStore

/-- `AUTH_TOKEN_KEY` constant of `useAuthStore.ts`. -/
def AUTH_TOKEN_KEY : String := "jwtToken"

/-- `partialize`: the persisted subset of the state. -/
def partialize (s : AuthState) : Snapshot :=
  ⟨s.user, s.token, s.isAuthenticated⟩

/-- A zustand `set` under the `persist` middleware: the new state is adopted
and its `partialize`d form is written under the key "auth-store". -/
def persistSet (s : AuthState) (st : Storage) : AuthState × Storage :=
  (s, setItem "auth-store" (.uaSnap (partialize s)) st)

/-- The state every action starts from: `set(\x7b isLoading: true \x7d)`. -/
def pendingState (s : AuthState) : AuthState :=
  { s with isLoading := true }

/-- The cleared state written by `logout`. -/
def loggedOutState : AuthState :=
  { user := none, token := none, isAuthenticated := false, isLoading := false }

/-- `logout()`: clears the in-memory state and removes the `jwtToken`,
`user` and `auth-store` storage keys.  Synchronous and total. -/
def logout (s : AuthState) (st : Storage) : AuthState × Storage :=
  let p := persistSet loggedOutState st
  (p.1, removeItem "auth-store" (removeItem "user" (removeItem AUTH_TOKEN_KEY p.2)))

/-- `setAuthenticated(status)`. -/
def setAuthenticated (status : Bool) (s : AuthState) (st : Storage) :
    AuthState × Storage :=
  persistSet { s with isAuthenticated := status } st

/-- `setToken(newToken)`. -/
def setToken (newToken : Option String) (s : AuthState) (st : Storage) :
    AuthState × Storage :=
  let p := persistSet { s with token := newToken } st
  match newToken with
  | some t => (p.1, setItem AUTH_TOKEN_KEY (.rawStr t) p.2)
  | none => (p.1, removeItem AUTH_TOKEN_KEY p.2)

/-- `setUser(newUser)`. -/
def setUser (newUser : Option User) (s : AuthState) (st : Storage) :
    AuthState × Storage :=
  let p := persistSet { s with user := newUser } st
  match newUser with
  | some u => (p.1, setItem "user" (.uaUser u) p.2)
  | none => (p.1, removeItem "user" p.2)

/-- Backend payload of the login / register / google-login endpoints. -/
structure LoginResponse where
  token : String
  user : User
deriving DecidableEq, Repr

/-- Result of a store action: final state, final storage, and the settled
promise (`ok` or the rejection value of the rethrown `Error`). -/
abbrev ActionResult := AuthState × Storage × Except JsError Unit

/-- Shared body of the success continuation of login-like actions: write the
raw token and the user to storage, then `set` the authenticated state. -/
def adoptLoginResponse (r : LoginResponse) (s : AuthState) (st : Storage) :
    AuthState × Storage :=
  let st1 := setItem AUTH_TOKEN_KEY (.rawStr r.token) st
  let st2 := setItem "user" (.uaUser r.user) st1
  persistSet { s with isAuthenticated := true, token := some r.token,
                      user := some r.user, isLoading := false } st2

/-- Mock user of the `mock@example.com` login branch. -/
def mockUser : User :=
  { id := "mock-user-1", email := "mock@example.com", username := "Mock User",
    avatar := none, provider := some .EMAIL }

/-- Mock user of the `mock-google-credential` branch. -/
def mockGoogleUser : User :=
  { id := "mock-user-2", email := "mock.google@example.com",
    username := "Mock Google User", avatar := none, provider := some .GOOGLE }

/-- `login(email, password)` of `useAuthStore.ts`.  The backend call's outcome
is passed in as `reply`; the mock branch never consults it.  On failure the
catch block calls `get().logout()` and rethrows `new Error(message)`. -/
def login (email password : String) (reply : BackendReply LoginResponse)
    (s : AuthState) (st : Storage) : ActionResult :=
  let p1 := persistSet (pendingState s) st
  if email = "mock@example.com" && password = "mockpassword" then
    let q := adoptLoginResponse ⟨"mock-jwt-token-for-test-user-123", mockUser⟩ p1.1 p1.2
    (q.1, q.2, .ok ())
  else
    match reply with
    | .ok r =>
      let q := adoptLoginResponse r p1.1 p1.2
      (q.1, q.2, .ok ())
    | .fail e =>
      let q := logout p1.1 p1.2
      (q.1, q.2, .error (mkJsError (errMessageOf e "Login failed")))

/-- `register(name, email, password)` of `useAuthStore.ts`. -/
def register (reply : BackendReply LoginResponse)
    (s : AuthState) (st : Storage) : ActionResult :=
  let p1 := persistSet (pendingState s) st
  match reply with
  | .ok r =>
    let q := adoptLoginResponse r p1.1 p1.2
    (q.1, q.2, .ok ())
  | .fail e =>
    let q := logout p1.1 p1.2
    (q.1, q.2, .error (mkJsError (errMessageOf e "Registration failed")))

/-- `loginWithGoogle(credential)` of `useAuthStore.ts`. -/
def loginWithGoogle (credential : String) (reply : BackendReply LoginResponse)
    (s : AuthState) (st : Storage) : ActionResult :=
  let p1 := persistSet (pendingState s) st
  if credential = "mock-google-credential" then
    let q := adoptLoginResponse ⟨"mock-google-jwt-token-456", mockGoogleUser⟩ p1.1 p1.2
    (q.1, q.2, .ok ())
  else
    match reply with
    | .ok r =>
      let q := adoptLoginResponse r p1.1 p1.2
      (q.1, q.2, .ok ())
    | .fail e =>
      let q := logout p1.1 p1.2
      (q.1, q.2, .error (mkJsError (errMessageOf e "Google login failed")))

/-- The patch argument of `updateProfile` (`Partial<User>`); it is forwarded
to the backend and has no direct effect on the state. -/
structure PartialUser where
  username : Option String := none
  avatar : Option String := none
  phone : Option String := none
  address : Option String := none
  city : Option String := none
  state : Option String := none
  zip : Option String := none
deriving DecidableEq, Repr

/-- `updateProfile(userData)` of `useAuthStore.ts`: on success the server's
returned user replaces `user` (token untouched); on failure only `isLoading`
is reset and the error is rethrown. -/
def updateProfile (userData : PartialUser) (reply : BackendReply User)
    (s : AuthState) (st : Storage) : ActionResult :=
  let p1 := persistSet (pendingState s) st
  match reply with
  | .ok data =>
    let st2 := setItem "user" (.uaUser data) p1.2
    let q := persistSet { p1.1 with user := some data, isLoading := false } st2
    (q.1, q.2, .ok ())
  | .fail e =>
    let q := persistSet { p1.1 with isLoading := false } p1.2
    (q.1, q.2, .error (mkJsError (errMessageOf e "Failed to update profile")))

/-- `onRehydrateStorage` callback of `useAuthStore.ts`, applied to the state
just rehydrated by the persist middleware.  `decode` models `jwtDecode`
(`none` = the library threw, caught by the `catch`); `nowMs` models
`Date.now()`.  The callback is total: every control path returns. -/
def onRehydrateStorage (decode : String → Option DecodedToken) (nowMs : ℚ)
    (s : AuthState) (st : Storage) : AuthState × Storage :=
  if truthy s.token then
    match decode (s.token.getD "") with
    | none => logout s st
    | some d =>
      if d.exp < nowMs / 1000 then logout s st
      else setAuthenticated true s st
  else (s, st)

/-- Initial state of the store before rehydration. -/
def initialState : AuthState :=
  { user := none, token := none, isAuthenticated := false, isLoading := false }

/-- The in-memory state the persist middleware builds from a snapshot. -/
def stateOfSnapshot (sn : Snapshot) : AuthState :=
  { user := sn.user, token := sn.token, isAuthenticated := sn.isAuthenticated,
    isLoading := false }

/-- Startup rehydration: the persist middleware reads the "auth-store" key,
merges the snapshot into the state, then runs the `onRehydrateStorage`
callback. -/
def rehydrate (decode : String → Option DecodedToken) (nowMs : ℚ)
    (st : Storage) : AuthState × Storage :=
  let s0 := match getItem "auth-store" st with
    | some (.uaSnap sn) => stateOfSnapshot sn
    | _ => initialState
  onRehydrateStorage decode nowMs s0 st

/-- The OAuth redirect-return path of the `LoginPage` draft
(`src/unnamed/part_011`, lines 42-71): a `token` query parameter is adopted
via `setToken(tokenFromUrl)` followed by `setAuthenticated(true)`; `setUser`
is never called. -/
def oauthReturn (tokenFromUrl : String) (s : AuthState) (st : Storage) :
    AuthState × Storage :=
  let p := setToken (some tokenFromUrl) s st
  setAuthenticated true p.1 p.2

/-- The three storage keys owned by `useAuthStore` are all absent. -/
def storageCleared (st : Storage) : Prop :=
  getItem AUTH_TOKEN_KEY st = none ∧ getItem "user" st = none ∧
    getItem "auth-store" st = none

instance (st : Storage) : Decidable (storageCleared st) := by
  unfold storageCleared; infer_instance

/-- The `LoggedOut` resting state of the spec: user and token absent,
`isAuthenticated` false. -/
def isLoggedOut (s : AuthState) : Prop :=
  s.user = none ∧ s.token = none ∧ s.isAuthenticated = false

instance (s : AuthState) : Decidable (isLoggedOut s) := by
  unfold isLoggedOut; infer_instance

/-- One invocation of a public action method of `useAuthStore`, together with
the outcome of its backend call. -/
inductive ActionStep where
  | loginA (email password : String) (reply : BackendReply LoginResponse)
  | registerA (reply : BackendReply LoginResponse)
  | googleA (credential : String) (reply : BackendReply LoginResponse)
  | updateA (userData : PartialUser) (reply : BackendReply User)
  | logoutA

/-- Running one action method to settlement (the rejection value, if any, is
dropped: only the resulting state and storage matter here). -/
def stepAction : ActionStep → AuthState × Storage → AuthState × Storage
  | .loginA email pw r, p => ((login email pw r p.1 p.2).1, (login email pw r p.1 p.2).2.1)
  | .registerA r, p => ((register r p.1 p.2).1, (register r p.1 p.2).2.1)
  | .googleA c r, p => ((loginWithGoogle c r p.1 p.2).1, (loginWithGoogle c r p.1 p.2).2.1)
  | .updateA u r, p => ((updateProfile u r p.1 p.2).1, (updateProfile u r p.1 p.2).2.1)
  | .logoutA, p => logout p.1 p.2

/-- The presence form of the spec's session invariant: the stored
`isAuthenticated` flag is set exactly when both `user` and `token` are
present. -/
def authInv (s : AuthState) : Prop :=
  s.isAuthenticated = true ↔ (s.user ≠ none ∧ s.token ≠ none)

instance (s : AuthState) : Decidable (authInv s) := by
  unfold authInv; infer_instance

/-- `n` consecutive calls of `logout()`. -/
def iterateLogout : Nat → AuthState × Storage → AuthState × Storage
  | 0, p => p
  | n + 1, p => iterateLogout n (logout p.1 p.2)

/-- Running a sequence of settled action-method invocations. -/
def runActions : List ActionStep → AuthState × Storage → AuthState × Storage
  | [], p => p
  | a :: rest, p => runActions rest (stepAction a p)

/-- Auxiliary strengthening of the session invariant used for the inductive
proof: a token is present only in an authenticated state with a user, and an
authenticated state holds a token. -/
def tokenTracks (s : AuthState) : Prop :=
  (s.token ≠ none → s.isAuthenticated = true ∧ s.user ≠ none) ∧
  (s.isAuthenticated = true → s.token ≠ none)

instance (s : AuthState) : Decidable (tokenTracks s) := by
  unfold tokenTracks; infer_instance

/-- A concrete user value for closed instantiations. -/
def sampleUser : User :=
  { id := "u-7", email := "alice@example.com", username := "alice" }

end useAuthStore

namespace authStore

/-- `partialize` of `auth-store.ts`. -/
def partialize (s : AuthState) : Snapshot :=
  ⟨s.user, s.token, s.isAuthenticated⟩

/-- A zustand `set` under the `persist` middleware of `auth-store.ts`. -/
def persistSet (s : AuthState) (st : Storage) : AuthState × Storage :=
  (s, setItem "auth-store" (.asSnap (partialize s)) st)

/-- `set(\x7b isLoading: true \x7d)` at the head of every async action. -/
def pendingState (s : AuthState) : AuthState :=
  { s with isLoading := true }

/-- Initial state of `auth-store`. -/
def initialState : AuthState :=
  { user := none, token := none, isAuthenticated := false, isLoading := false }

/-- Backend payload `\x7b token, user \x7d` of the auth endpoints. -/
structure LoginResponse where
  token : String
  user : User
deriving DecidableEq, Repr

abbrev ActionResult := AuthState × Storage × Except JsError Unit

/-- `logout()` of `auth-store.ts`: clears user/token/isAuthenticated (it does
not touch `isLoading`) and removes the `token` and `auth-store` keys. -/
def logout (s : AuthState) (st : Storage) : AuthState × Storage :=
  let p := persistSet { s with user := none, token := none, isAuthenticated := false } st
  (p.1, removeItem "auth-store" (removeItem "token" p.2))

/-- Mock user of the `test@example.com` / `123456` login branch; the `email`
field repeats the submitted email. -/
def mockUser (email : String) : User :=
  { id := "1", name := "Demo User", email := email, avatar := none,
    provider := some .email }

/-- Success continuation shared by the real-API branches: store the raw token
under "token", then `set` the authenticated state. -/
def adoptLoginResponse (r : LoginResponse) (s : AuthState) (st : Storage) :
    AuthState × Storage :=
  let st1 := setItem "token" (.rawStr r.token) st
  persistSet { s with user := some r.user, token := some r.token,
                      isAuthenticated := true, isLoading := false } st1

/-- `login(email, password)` of `auth-store.ts`.  The branch for
`test@example.com` / `123456` short-circuits with a hardcoded mock session
("mock-token") and never consults the backend.  The catch block only resets
`isLoading` and rethrows: the prior session state is preserved. -/
def login (email password : String) (reply : BackendReply LoginResponse)
    (s : AuthState) (st : Storage) : ActionResult :=
  let p1 := persistSet (pendingState s) st
  if email = "test@example.com" && password = "123456" then
    let st2 := setItem "token" (.rawStr "mock-token") p1.2
    let s2 : AuthState :=
      { p1.1 with user := some (mockUser email), token := some "mock-token",
                  isAuthenticated := true, isLoading := false }
    let q := persistSet s2 st2
    (q.1, q.2, .ok ())
  else
    match reply with
    | .ok r =>
      let q := adoptLoginResponse r p1.1 p1.2
      (q.1, q.2, .ok ())
    | .fail e =>
      let q := persistSet { p1.1 with isLoading := false } p1.2
      (q.1, q.2, .error (mkJsError (errMessageOfAS e "Login failed")))

/-- Mock user of the `mock-google-credential` branch of `auth-store.ts`. -/
def mockGoogleUser : User :=
  { id := "2", name := "Google User", email := "googleuser@example.com",
    avatar := none, provider := some .google }

/-- `loginWithGoogle(credential)` of `auth-store.ts`. -/
def loginWithGoogle (credential : String) (reply : BackendReply LoginResponse)
    (s : AuthState) (st : Storage) : ActionResult :=
  let p1 := persistSet (pendingState s) st
  if credential = "mock-google-credential" then
    let st2 := setItem "token" (.rawStr "mock-google-token") p1.2
    let s2 : AuthState :=
      { p1.1 with user := some mockGoogleUser, token := some "mock-google-token",
                  isAuthenticated := true, isLoading := false }
    let q := persistSet s2 st2
    (q.1, q.2, .ok ())
  else
    match reply with
    | .ok r =>
      let q := adoptLoginResponse r p1.1 p1.2
      (q.1, q.2, .ok ())
    | .fail e =>
      let q := persistSet { p1.1 with isLoading := false } p1.2
      (q.1, q.2, .error (mkJsError (errMessageOfAS e "Google login failed")))

/-- `register(name, email, password)` of `auth-store.ts` (no mock branch). -/
def register (reply : BackendReply LoginResponse)
    (s : AuthState) (st : Storage) : ActionResult :=
  let p1 := persistSet (pendingState s) st
  match reply with
  | .ok r =>
    let q := adoptLoginResponse r p1.1 p1.2
    (q.1, q.2, .ok ())
  | .fail e =>
    let q := persistSet { p1.1 with isLoading := false } p1.2
    (q.1, q.2, .error (mkJsError (errMessageOfAS e "Registration failed")))

/-- `updateProfile(userData)` of `auth-store.ts`. -/
def updateProfile (reply : BackendReply User)
    (s : AuthState) (st : Storage) : ActionResult :=
  let p1 := persistSet (pendingState s) st
  match reply with
  | .ok data =>
    let q := persistSet { p1.1 with user := some data, isLoading := false } p1.2
    (q.1, q.2, .ok ())
  | .fail e =>
    let q := persistSet { p1.1 with isLoading := false } p1.2
    (q.1, q.2, .error (mkJsError (errMessageOfAS e "Failed to update profile")))

/-- The `LoggedOut` resting state: user and token absent, flag false. -/
def isLoggedOut (s : AuthState) : Prop :=
  s.user = none ∧ s.token = none ∧ s.isAuthenticated = false

instance (s : AuthState) : Decidable (isLoggedOut s) := by
  unfold isLoggedOut; infer_instance

/-- The two storage keys owned by `auth-store` are both absent. -/
def storageCleared (st : Storage) : Prop :=
  getItem "token" st = none ∧ getItem "auth-store" st = none

instance (st : Storage) : Decidable (storageCleared st) := by
  unfold storageCleared; infer_instance

/-- `n` consecutive calls of `logout()`. -/
def iterateLogout : Nat → AuthState × Storage → AuthState × Storage
  | 0, p => p
  | n + 1, p => iterateLogout n (logout p.1 p.2)

/-- A concrete user value for closed instantiations. -/
def sampleUser : User :=
  { id := "u-9", name := "Bob", email := "bob@example.com" }

/-- A concrete established (LoggedIn) session for closed instantiations. -/
def sampleLoggedIn : AuthState :=
  { user := some sampleUser, token := some "tok0", isAuthenticated := true,
    isLoading := false }

end authStore

namespace api

/-- Outcome of the response interceptor's error handler: either the error is
propagated (`Promise.reject(error)`) or swallowed by the never-resolving
promise returned on 401. -/
inductive InterceptOutcome where
  | suppressed
  | rejected (e : AxiosFailure)
deriving DecidableEq, Repr

/-- Result of running the response interceptor's error handler.  The handler
in `src/lib/api.ts` holds no reference to any store, so the store state is
threaded through unchanged; `redirect` records an assignment to
`window.location.href`. -/
structure InterceptResult where
  state : authStore.AuthState
  storage : Storage
  redirect : Option String
  outcome : InterceptOutcome
deriving DecidableEq, Repr

/-- The rejection handler of `api.interceptors.response.use` in
`src/lib/api.ts`: on a 401 it removes the raw "token" storage key, sets
`window.location.href = "/login"` and returns a never-resolving promise; on
every other error it re-rejects.  It never mutates the session store's state
and never touches the "auth-store" key. -/
def interceptOnError (e : AxiosFailure) (s : authStore.AuthState)
    (st : Storage) : InterceptResult :=
  if e.responseStatus = some 401 then
    ⟨s, removeItem "token" st, some "/login", .suppressed⟩
  else
    ⟨s, st, none, .rejected e⟩

end api

/-! ## Helper lemmas -/

theorem ua_logout_fst (s : useAuthStore.AuthState) (st : Storage) :
    (useAuthStore.logout s st).1 = useAuthStore.loggedOutState := rfl

theorem ua_logout_cleared (s : useAuthStore.AuthState) (st : Storage) :
    useAuthStore.storageCleared (useAuthStore.logout s st).2 := by
  have h2 : (useAuthStore.logout s st).2 =
      removeItem "auth-store" (removeItem "user"
        (removeItem useAuthStore.AUTH_TOKEN_KEY
          (setItem "auth-store"
            (.uaSnap (useAuthStore.partialize useAuthStore.loggedOutState)) st))) := rfl
  refine ⟨?_, ?_, ?_⟩ <;> rw [h2]
  · rw [getItem_removeItem_other _ _ _ (by decide),
      getItem_removeItem_other _ _ _ (by decide), getItem_removeItem_same]
  · rw [getItem_removeItem_other _ _ _ (by decide), getItem_removeItem_same]
  · rw [getItem_removeItem_same]

theorem as_logout_loggedOut (s : authStore.AuthState) (st : Storage) :
    authStore.isLoggedOut (authStore.logout s st).1 :=
  ⟨rfl, rfl, rfl⟩

theorem as_logout_cleared (s : authStore.AuthState) (st : Storage) :
    authStore.storageCleared (authStore.logout s st).2 := by
  have h2 : (authStore.logout s st).2 =
      removeItem "auth-store" (removeItem "token"
        (setItem "auth-store"
          (.asSnap (authStore.partialize
            { s with user := none, token := none, isAuthenticated := false })) st)) := rfl
  refine ⟨?_, ?_⟩ <;> rw [h2]
  · rw [getItem_removeItem_other _ _ _ (by decide), getItem_removeItem_same]
  · rw [getItem_removeItem_same]

theorem ua_iterate_logout (m : Nat) : ∀ (s : useAuthStore.AuthState) (st : Storage),
    useAuthStore.isLoggedOut
      (useAuthStore.iterateLogout m (useAuthStore.logout s st)).1 ∧
    useAuthStore.storageCleared
      (useAuthStore.iterateLogout m (useAuthStore.logout s st)).2 := by
  induction m with
  | zero =>
    intro s st
    exact ⟨⟨rfl, rfl, rfl⟩, ua_logout_cleared s st⟩
  | succ m ih =>
    intro s st
    simpa [useAuthStore.iterateLogout] using
      ih (useAuthStore.logout s st).1 (useAuthStore.logout s st).2

theorem as_iterate_logout (m : Nat) : ∀ (s : authStore.AuthState) (st : Storage),
    authStore.isLoggedOut
      (authStore.iterateLogout m (authStore.logout s st)).1 ∧
    authStore.storageCleared
      (authStore.iterateLogout m (authStore.logout s st)).2 := by
  induction m with
  | zero =>
    intro s st
    exact ⟨as_logout_loggedOut s st, as_logout_cleared s st⟩
  | succ m ih =>
    intro s st
    simpa [authStore.iterateLogout] using
      ih (authStore.logout s st).1 (authStore.logout s st).2

theorem ua_rehydrate_eq (decode : String → Option useAuthStore.DecodedToken)
    (nowMs : ℚ) (st : Storage) (sn : useAuthStore.Snapshot)
    (hsnap : getItem "auth-store" st = some (.uaSnap sn)) :
    useAuthStore.rehydrate decode nowMs st =
      useAuthStore.onRehydrateStorage decode nowMs
        (useAuthStore.stateOfSnapshot sn) st := by
  simp only [useAuthStore.rehydrate, hsnap]

theorem ua_onRehydrate_cases (decode : String → Option useAuthStore.DecodedToken)
    (nowMs : ℚ) (s : useAuthStore.AuthState) (st : Storage) (t : String)
    (ht : s.token = some t) (hne : t ≠ "") :
    useAuthStore.onRehydrateStorage decode nowMs s st =
      match decode t with
      | none => useAuthStore.logout s st
      | some d =>
        if d.exp < nowMs / 1000 then useAuthStore.logout s st
        else useAuthStore.setAuthenticated true s st := by
  unfold useAuthStore.onRehydrateStorage
  rw [ht]
  simp [truthy, hne, String.isEmpty_iff]

theorem ua_login_mock_fst (r : BackendReply useAuthStore.LoginResponse)
    (s : useAuthStore.AuthState) (st : Storage) :
    (useAuthStore.login "mock@example.com" "mockpassword" r s st).1 =
      ⟨some useAuthStore.mockUser, some "mock-jwt-token-for-test-user-123",
        true, false⟩ := rfl

theorem ua_login_ok_fst (email pw : String) (v : useAuthStore.LoginResponse)
    (s : useAuthStore.AuthState) (st : Storage)
    (hm : (email = "mock@example.com" && pw = "mockpassword") = false) :
    (useAuthStore.login email pw (.ok v) s st).1 =
      ⟨some v.user, some v.token, true, false⟩ := by
  simp [useAuthStore.login, hm, useAuthStore.adoptLoginResponse,
    useAuthStore.persistSet]

theorem ua_login_fail_fst (email pw : String) (e : AxiosFailure)
    (s : useAuthStore.AuthState) (st : Storage)
    (hm : (email = "mock@example.com" && pw = "mockpassword") = false) :
    (useAuthStore.login email pw (.fail e) s st).1 =
      useAuthStore.loggedOutState := by
  simp [useAuthStore.login, hm, useAuthStore.logout, useAuthStore.persistSet]

theorem ua_login_fail_snd (email pw : String) (e : AxiosFailure)
    (s : useAuthStore.AuthState) (st : Storage)
    (hm : (email = "mock@example.com" && pw = "mockpassword") = false) :
    (useAuthStore.login email pw (.fail e) s st).2.1 =
      (useAuthStore.logout (useAuthStore.pendingState s)
        (setItem "auth-store"
          (.uaSnap (useAuthStore.partialize (useAuthStore.pendingState s))) st)).2 := by
  simp [useAuthStore.login, hm, useAuthStore.persistSet]

theorem ua_login_fail_err (email pw : String) (e : AxiosFailure)
    (s : useAuthStore.AuthState) (st : Storage)
    (hm : (email = "mock@example.com" && pw = "mockpassword") = false) :
    (useAuthStore.login email pw (.fail e) s st).2.2 =
      .error (mkJsError (errMessageOf e "Login failed")) := by
  simp [useAuthStore.login, hm]

theorem ua_register_ok_fst (v : useAuthStore.LoginResponse)
    (s : useAuthStore.AuthState) (st : Storage) :
    (useAuthStore.register (.ok v) s st).1 =
      ⟨some v.user, some v.token, true, false⟩ := rfl

theorem ua_register_fail_fst (e : AxiosFailure)
    (s : useAuthStore.AuthState) (st : Storage) :
    (useAuthStore.register (.fail e) s st).1 = useAuthStore.loggedOutState := rfl

theorem ua_google_mock_fst (r : BackendReply useAuthStore.LoginResponse)
    (s : useAuthStore.AuthState) (st : Storage) :
    (useAuthStore.loginWithGoogle "mock-google-credential" r s st).1 =
      ⟨some useAuthStore.mockGoogleUser, some "mock-google-jwt-token-456",
        true, false⟩ := rfl

theorem ua_google_ok_fst (c : String) (v : useAuthStore.LoginResponse)
    (s : useAuthStore.AuthState) (st : Storage)
    (hm : ¬ c = "mock-google-credential") :
    (useAuthStore.loginWithGoogle c (.ok v) s st).1 =
      ⟨some v.user, some v.token, true, false⟩ := by
  simp [useAuthStore.loginWithGoogle, hm, useAuthStore.adoptLoginResponse,
    useAuthStore.persistSet]

theorem ua_google_fail_fst (c : String) (e : AxiosFailure)
    (s : useAuthStore.AuthState) (st : Storage)
    (hm : ¬ c = "mock-google-credential") :
    (useAuthStore.loginWithGoogle c (.fail e) s st).1 =
      useAuthStore.loggedOutState := by
  simp [useAuthStore.loginWithGoogle, hm, useAuthStore.logout,
    useAuthStore.persistSet]

theorem ua_update_ok_fst (u : useAuthStore.PartialUser) (v : useAuthStore.User)
    (s : useAuthStore.AuthState) (st : Storage) :
    (useAuthStore.updateProfile u (.ok v) s st).1 =
      ⟨some v, s.token, s.isAuthenticated, false⟩ := rfl

theorem ua_update_fail_fst (u : useAuthStore.PartialUser) (e : AxiosFailure)
    (s : useAuthStore.AuthState) (st : Storage) :
    (useAuthStore.updateProfile u (.fail e) s st).1 =
      ⟨s.user, s.token, s.isAuthenticated, false⟩ := rfl

theorem ua_tokenTracks_full (u : useAuthStore.User) (t : String) :
    useAuthStore.tokenTracks ⟨some u, some t, true, false⟩ := by
  unfold useAuthStore.tokenTracks
  simp

theorem ua_tokenTracks_loggedOut :
    useAuthStore.tokenTracks useAuthStore.loggedOutState := by
  unfold useAuthStore.tokenTracks useAuthStore.loggedOutState
  simp

theorem ua_step_tokenTracks (a : useAuthStore.ActionStep)
    (p : useAuthStore.AuthState × Storage)
    (h : useAuthStore.tokenTracks p.1) :
    useAuthStore.tokenTracks (useAuthStore.stepAction a p).1 := by
  obtain ⟨s, st⟩ := p
  cases a with
  | loginA email pw r =>
    have hstep : (useAuthStore.stepAction (.loginA email pw r) (s, st)).1 =
        (useAuthStore.login email pw r s st).1 := rfl
    rw [hstep]
    by_cases hm : (email = "mock@example.com" && pw = "mockpassword") = true
    · rw [Bool.and_eq_true] at hm
      obtain ⟨h1, h2⟩ := hm
      rw [of_decide_eq_true h1, of_decide_eq_true h2, ua_login_mock_fst]
      exact ua_tokenTracks_full _ _
    · have hm' := Bool.eq_false_iff.mpr hm
      cases r with
      | ok v =>
        rw [ua_login_ok_fst email pw v s st hm']
        exact ua_tokenTracks_full _ _
      | fail e =>
        rw [ua_login_fail_fst email pw e s st hm']
        exact ua_tokenTracks_loggedOut
  | registerA r =>
    cases r with
    | ok v =>
      have hstep : (useAuthStore.stepAction (.registerA (.ok v)) (s, st)).1 =
          (⟨some v.user, some v.token, true, false⟩ : useAuthStore.AuthState) := rfl
      rw [hstep]
      exact ua_tokenTracks_full _ _
    | fail e =>
      have hstep : (useAuthStore.stepAction (.registerA (.fail e)) (s, st)).1 =
          useAuthStore.loggedOutState := rfl
      rw [hstep]
      exact ua_tokenTracks_loggedOut
  | googleA c r =>
    have hstep : (useAuthStore.stepAction (.googleA c r) (s, st)).1 =
        (useAuthStore.loginWithGoogle c r s st).1 := rfl
    rw [hstep]
    by_cases hm : c = "mock-google-credential"
    · rw [hm, ua_google_mock_fst]
      exact ua_tokenTracks_full _ _
    · cases r with
      | ok v =>
        rw [ua_google_ok_fst c v s st hm]
        exact ua_tokenTracks_full _ _
      | fail e =>
        rw [ua_google_fail_fst c e s st hm]
        exact ua_tokenTracks_loggedOut
  | updateA u r =>
    cases r with
    | ok v =>
      have hstep : (useAuthStore.stepAction (.updateA u (.ok v)) (s, st)).1 =
          (⟨some v, s.token, s.isAuthenticated, false⟩ : useAuthStore.AuthState) := rfl
      rw [hstep]
      exact ⟨fun ht => ⟨(h.1 ht).1, by simp⟩, h.2⟩
    | fail e =>
      have hstep : (useAuthStore.stepAction (.updateA u (.fail e)) (s, st)).1 =
          (⟨s.user, s.token, s.isAuthenticated, false⟩ : useAuthStore.AuthState) := rfl
      rw [hstep]
      exact ⟨fun ht => (h.1 ht), h.2⟩
  | logoutA =>
    have hstep : (useAuthStore.stepAction .logoutA (s, st)).1 =
        useAuthStore.loggedOutState := rfl
    rw [hstep]
    exact ua_tokenTracks_loggedOut

theorem ua_runActions_tokenTracks (l : List useAuthStore.ActionStep) :
    ∀ p : useAuthStore.AuthState × Storage, useAuthStore.tokenTracks p.1 →
      useAuthStore.tokenTracks (useAuthStore.runActions l p).1 := by
  induction l with
  | nil => intro p h; exact h
  | cons a rest ih =>
    intro p h
    exact ih (useAuthStore.stepAction a p) (ua_step_tokenTracks a p h)

theorem ua_tokenTracks_authInv (s : useAuthStore.AuthState)
    (h : useAuthStore.tokenTracks s) : useAuthStore.authInv s := by
  constructor
  · intro ha
    exact ⟨(h.1 (h.2 ha)).2, h.2 ha⟩
  · intro hut
    exact (h.1 hut.2).1

theorem as_login_fail_fst (email pw : String) (e : AxiosFailure)
    (s : authStore.AuthState) (st : Storage)
    (hm : (email = "test@example.com" && pw = "123456") = false) :
    (authStore.login email pw (.fail e) s st).1 = { s with isLoading := false } := by
  simp [authStore.login, hm, authStore.persistSet, authStore.pendingState]

theorem as_login_fail_store (email pw : String) (e : AxiosFailure)
    (s : authStore.AuthState) (st : Storage)
    (hm : (email = "test@example.com" && pw = "123456") = false) :
    getItem "auth-store" (authStore.login email pw (.fail e) s st).2.1 =
      some (.asSnap (authStore.partialize s)) := by
  simp [authStore.login, hm, authStore.persistSet, authStore.pendingState,
    authStore.partialize, getItem_setItem_same]

theorem as_login_fail_err (email pw : String) (e : AxiosFailure)
    (s : authStore.AuthState) (st : Storage)
    (hm : (email = "test@example.com" && pw = "123456") = false) :
    (authStore.login email pw (.fail e) s st).2.2 =
      .error (mkJsError (errMessageOfAS e "Login failed")) := by
  simp [authStore.login, hm]

/-! ## Claims -/

/-- C1: rehydrating a persisted snapshot whose (non-empty, decodable) token
has an expiry claim in the past at rehydration time yields the logged-out
state (user and token absent, `isAuthenticated` false) and clears the
persistent storage keys; rehydrating a snapshot whose decodable token is not
expired yields exactly the persisted user and token with
`isAuthenticated = true`. -/
theorem C1_rehydrate_determinism (st : Storage) (sn : useAuthStore.Snapshot)
    (decode : String → Option useAuthStore.DecodedToken) (nowMs : ℚ)
    (t : String) (d : useAuthStore.DecodedToken)
    (hsnap : getItem "auth-store" st = some (.uaSnap sn))
    (htok : sn.token = some t) (hne : t ≠ "")
    (hdec : decode t = some d) :
    (d.exp < nowMs / 1000 →
      (useAuthStore.rehydrate decode nowMs st).1 = useAuthStore.loggedOutState ∧
      useAuthStore.storageCleared (useAuthStore.rehydrate decode nowMs st).2) ∧
    (¬ d.exp < nowMs / 1000 →
      (useAuthStore.rehydrate decode nowMs st).1 =
        { user := sn.user, token := sn.token, isAuthenticated := true,
          isLoading := false }) := by
  have ht : (useAuthStore.stateOfSnapshot sn).token = some t := htok
  have hre := ua_rehydrate_eq decode nowMs st sn hsnap
  have hcase := ua_onRehydrate_cases decode nowMs
    (useAuthStore.stateOfSnapshot sn) st t ht hne
  constructor
  · intro hexp
    have hrun : useAuthStore.rehydrate decode nowMs st =
        useAuthStore.logout (useAuthStore.stateOfSnapshot sn) st := by
      rw [hre, hcase, hdec]
      simp [hexp]
    rw [hrun]
    exact ⟨ua_logout_fst _ _, ua_logout_cleared _ _⟩
  · intro hval
    have hrun : useAuthStore.rehydrate decode nowMs st =
        useAuthStore.setAuthenticated true (useAuthStore.stateOfSnapshot sn) st := by
      rw [hre, hcase, hdec]
      simp [hval]
    rw [hrun]
    rfl

/-- Witness for C1: a stored snapshot with token "tok" expiring at epoch
second 10, rehydrated when `Date.now()` is 20000 ms (epoch second 20), ends
logged out with storage cleared. -/
theorem C1_rehydrate_determinism_witness :
    (useAuthStore.rehydrate (fun _ => some ⟨10, 0, "alice"⟩) 20000
      [("auth-store", .uaSnap ⟨some useAuthStore.sampleUser, some "tok", true⟩)]).1 =
      useAuthStore.loggedOutState ∧
    useAuthStore.storageCleared
      (useAuthStore.rehydrate (fun _ => some ⟨10, 0, "alice"⟩) 20000
        [("auth-store", .uaSnap ⟨some useAuthStore.sampleUser, some "tok", true⟩)]).2 :=
  (C1_rehydrate_determinism
    [("auth-store", .uaSnap ⟨some useAuthStore.sampleUser, some "tok", true⟩)]
    ⟨some useAuthStore.sampleUser, some "tok", true⟩
    (fun _ => some ⟨10, 0, "alice"⟩) 20000 "tok" ⟨10, 0, "alice"⟩
    (by decide) rfl (by decide) rfl).1 (by norm_num)

/-- C10: rehydrating a persisted snapshot whose (non-empty) token cannot be
decoded as a JWT - `jwtDecode` throws, modelled by `decode t = none` - runs
the catch block, which performs the `logout()` transition: the session ends
logged out and the storage keys are cleared.  `onRehydrateStorage` is a total
function: the exception is consumed by the catch block and none escapes to
the rehydration caller. -/
theorem C10_rehydrate_invalid_token (st : Storage) (sn : useAuthStore.Snapshot)
    (decode : String → Option useAuthStore.DecodedToken) (nowMs : ℚ)
    (t : String)
    (hsnap : getItem "auth-store" st = some (.uaSnap sn))
    (htok : sn.token = some t) (hne : t ≠ "")
    (hdec : decode t = none) :
    (useAuthStore.rehydrate decode nowMs st).1 = useAuthStore.loggedOutState ∧
    useAuthStore.storageCleared (useAuthStore.rehydrate decode nowMs st).2 := by
  have ht : (useAuthStore.stateOfSnapshot sn).token = some t := htok
  have hrun : useAuthStore.rehydrate decode nowMs st =
      useAuthStore.logout (useAuthStore.stateOfSnapshot sn) st := by
    rw [ua_rehydrate_eq decode nowMs st sn hsnap,
      ua_onRehydrate_cases decode nowMs (useAuthStore.stateOfSnapshot sn) st t ht hne,
      hdec]
  rw [hrun]
  exact ⟨ua_logout_fst _ _, ua_logout_cleared _ _⟩

/-- Witness for C10 with an undecodable stored token. -/
theorem C10_rehydrate_invalid_token_witness :
    (useAuthStore.rehydrate (fun _ => none) 20000
      [("auth-store",
        .uaSnap ⟨some useAuthStore.sampleUser, some "not-a-jwt", true⟩)]).1 =
      useAuthStore.loggedOutState ∧
    useAuthStore.storageCleared
      (useAuthStore.rehydrate (fun _ => none) 20000
        [("auth-store",
          .uaSnap ⟨some useAuthStore.sampleUser, some "not-a-jwt", true⟩)]).2 :=
  C10_rehydrate_invalid_token
    [("auth-store", .uaSnap ⟨some useAuthStore.sampleUser, some "not-a-jwt", true⟩)]
    ⟨some useAuthStore.sampleUser, some "not-a-jwt", true⟩
    (fun _ => none) 20000 "not-a-jwt" (by decide) rfl (by decide) rfl

/-- C6: calling `logout()` any number n ≥ 1 of consecutive times, from any
starting state of either store implementation, ends in the `LoggedOut` state
(user and token absent, `isAuthenticated` false) with the store's persistent
storage keys cleared; `logout` is a total synchronous function, so no error is
thrown, and invoking it on an already-logged-out state is a no-op on the
state. -/
theorem C6_logout_idempotent (n : Nat) (hn : 1 ≤ n)
    (s : useAuthStore.AuthState) (st : Storage)
    (s' : authStore.AuthState) (st' : Storage) :
    useAuthStore.isLoggedOut (useAuthStore.iterateLogout n (s, st)).1 ∧
    useAuthStore.storageCleared (useAuthStore.iterateLogout n (s, st)).2 ∧
    authStore.isLoggedOut (authStore.iterateLogout n (s', st')).1 ∧
    authStore.storageCleared (authStore.iterateLogout n (s', st')).2 ∧
    (useAuthStore.logout useAuthStore.loggedOutState st).1 =
      useAuthStore.loggedOutState ∧
    (authStore.isLoggedOut s' → authStore.isLoggedOut (authStore.logout s' st').1) := by
  obtain ⟨m, rfl⟩ : ∃ m, n = m + 1 := ⟨n - 1, (Nat.succ_pred_eq_of_pos hn).symm⟩
  have h1 := ua_iterate_logout m s st
  have h2 := as_iterate_logout m s' st'
  exact ⟨h1.1, h1.2, h2.1, h2.2, rfl, fun _ => as_logout_loggedOut s' st'⟩

/-- Witness for C6 at n = 2 and concrete logged-in starting states. -/
theorem C6_logout_idempotent_witness :
    useAuthStore.isLoggedOut
      (useAuthStore.iterateLogout 2
        (⟨some useAuthStore.sampleUser, some "tok", true, false⟩, [])).1 ∧
    useAuthStore.storageCleared
      (useAuthStore.iterateLogout 2
        (⟨some useAuthStore.sampleUser, some "tok", true, false⟩, [])).2 ∧
    authStore.isLoggedOut (authStore.iterateLogout 2 (authStore.sampleLoggedIn, [])).1 ∧
    authStore.storageCleared (authStore.iterateLogout 2 (authStore.sampleLoggedIn, [])).2 ∧
    (useAuthStore.logout useAuthStore.loggedOutState []).1 =
      useAuthStore.loggedOutState ∧
    (authStore.isLoggedOut authStore.initialState →
      authStore.isLoggedOut (authStore.logout authStore.initialState []).1) := by
  have h := C6_logout_idempotent 2 (by decide)
    ⟨some useAuthStore.sampleUser, some "tok", true, false⟩ []
    authStore.sampleLoggedIn []
  exact ⟨h.1, h.2.1, h.2.2.1, h.2.2.2.1, rfl, fun _ => as_logout_loggedOut _ _⟩

/-- C7: a successful `updateProfile` replaces `user` with exactly the
server's returned representation (for example a user whose `phone` is
"555-0100") while `token` keeps its value from before the call; a failed
`updateProfile` leaves `user` (and `token`) unchanged and rethrows the
normalized message to the caller. -/
theorem C7_updateProfile_frame (s : useAuthStore.AuthState) (st : Storage)
    (patch : useAuthStore.PartialUser) :
    (∀ u : useAuthStore.User,
      (useAuthStore.updateProfile patch (.ok u) s st).1.user = some u ∧
      (useAuthStore.updateProfile patch (.ok u) s st).1.token = s.token) ∧
    (∀ e : AxiosFailure,
      (useAuthStore.updateProfile patch (.fail e) s st).1.user = s.user ∧
      (useAuthStore.updateProfile patch (.fail e) s st).1.token = s.token ∧
      (useAuthStore.updateProfile patch (.fail e) s st).2.2 =
        .error (mkJsError (errMessageOf e "Failed to update profile"))) :=
  ⟨fun _ => ⟨rfl, rfl⟩, fun _ => ⟨rfl, rfl, rfl⟩⟩

/-- C8: each action method of both store implementations sets `isLoading`
synchronously at invocation (the state suspended on is `pendingState`, whose
flag is true), and in every outcome of the backend call - success, mock
short-circuit, or failure - the state at settlement has `isLoading` false, so
the flag never remains true after the returned promise settles. -/
theorem C8_isLoading_settles (s : useAuthStore.AuthState)
    (s' : authStore.AuthState) (st : Storage) :
    (useAuthStore.pendingState s).isLoading = true ∧
    (authStore.pendingState s').isLoading = true ∧
    (∀ email pw r, (useAuthStore.login email pw r s st).1.isLoading = false) ∧
    (∀ r, (useAuthStore.register r s st).1.isLoading = false) ∧
    (∀ c r, (useAuthStore.loginWithGoogle c r s st).1.isLoading = false) ∧
    (∀ u r, (useAuthStore.updateProfile u r s st).1.isLoading = false) ∧
    (∀ email pw r, (authStore.login email pw r s' st).1.isLoading = false) ∧
    (∀ r, (authStore.register r s' st).1.isLoading = false) ∧
    (∀ c r, (authStore.loginWithGoogle c r s' st).1.isLoading = false) ∧
    (∀ r, (authStore.updateProfile r s' st).1.isLoading = false) := by
  refine ⟨rfl, rfl, ?_, ?_, ?_, ?_, ?_, ?_, ?_, ?_⟩
  · intro email pw r
    unfold useAuthStore.login
    split
    · rfl
    · cases r <;> rfl
  · intro r; cases r <;> rfl
  · intro c r
    unfold useAuthStore.loginWithGoogle
    split
    · rfl
    · cases r <;> rfl
  · intro u r; cases r <;> rfl
  · intro email pw r
    unfold authStore.login
    split
    · rfl
    · cases r <;> rfl
  · intro r; cases r <;> rfl
  · intro c r
    unfold authStore.loginWithGoogle
    split
    · rfl
    · cases r <;> rfl
  · intro r; cases r <;> rfl

/-- C2 counterexample: the OAuth redirect-return path of the LoginPage draft
(`setToken(tokenFromUrl)` followed by `setAuthenticated(true)`, with no
`setUser` call) leaves `isAuthenticated = true` while `user` is absent; and
rehydrating a snapshot whose token is absent leaves a persisted
`isAuthenticated = true` in place with both `user` and `token` absent.  This
refutes the claim that no operation can leave `isAuthenticated` true while
`user` or `token` is absent. -/
theorem C2_invariant_counterexample :
    (useAuthStore.oauthReturn "url-token" useAuthStore.initialState []).1.isAuthenticated = true ∧
    (useAuthStore.oauthReturn "url-token" useAuthStore.initialState []).1.user = none ∧
    (useAuthStore.rehydrate (fun _ => none) 0
      [("auth-store", .uaSnap ⟨none, none, true⟩)]).1.isAuthenticated = true ∧
    (useAuthStore.rehydrate (fun _ => none) 0
      [("auth-store", .uaSnap ⟨none, none, true⟩)]).1.user = none ∧
    (useAuthStore.rehydrate (fun _ => none) 0
      [("auth-store", .uaSnap ⟨none, none, true⟩)]).1.token = none := by
  refine ⟨rfl, rfl, rfl, rfl, rfl⟩

/-- C2 (amended): for every state reachable from the initial state by the
action methods `login`, `register`, `loginWithGoogle`, `updateProfile` and
`logout` (under any backend outcomes), `isAuthenticated = true` holds exactly
when both `user` and `token` are present; the bare setter paths - in
particular the OAuth redirect return, which sets a token and the flag but no
user - are the only writers that break this correspondence. -/
theorem C2_invariant_amended (l : List useAuthStore.ActionStep) (st : Storage) :
    useAuthStore.authInv
      (useAuthStore.runActions l (useAuthStore.initialState, st)).1 :=
  ua_tokenTracks_authInv _
    (ua_runActions_tokenTracks l (useAuthStore.initialState, st)
      (show useAuthStore.tokenTracks useAuthStore.initialState from by decide))

/-- C3 counterexample: with an established session (`sampleUser`, token
"tok0") in `useAuthStore`, a `login` whose backend call fails runs the catch
block's `get().logout()`: the session is destroyed (the final state is the
logged-out state, different from the prior state) and the persisted
"auth-store" snapshot is removed, refuting both "the Session is unchanged"
and "the failed login writes nothing to persistent storage". -/
theorem C3_failed_login_counterexample :
    (useAuthStore.login "alice@example.com" "pw1"
        (.fail ⟨false, true, none, none, some "Network Error"⟩)
        ⟨some useAuthStore.sampleUser, some "tok0", true, false⟩
        [("auth-store", .uaSnap ⟨some useAuthStore.sampleUser, some "tok0", true⟩)]).1 =
      useAuthStore.loggedOutState ∧
    (⟨some useAuthStore.sampleUser, some "tok0", true, false⟩ : useAuthStore.AuthState) ≠
      useAuthStore.loggedOutState ∧
    getItem "auth-store"
      (useAuthStore.login "alice@example.com" "pw1"
        (.fail ⟨false, true, none, none, some "Network Error"⟩)
        ⟨some useAuthStore.sampleUser, some "tok0", true, false⟩
        [("auth-store", .uaSnap ⟨some useAuthStore.sampleUser, some "tok0", true⟩)]).2.1 =
      none := by
  refine ⟨rfl, by decide, by decide⟩

/-- C3 (amended): in `useAuthStore` (the implementation with the
`get().logout()` catch handler) a failed non-mock `login` from any starting
state - including a LoggedIn one - ends in the logged-out state with the
storage keys cleared, `isLoading` false, and the normalized message rethrown;
in the alternate `auth-store.ts` implementation the catch block only resets
`isLoading`, so the prior session (user, token, flag, persisted snapshot) is
preserved there. -/
theorem C3_failed_login_amended (email pw : String) (e : AxiosFailure)
    (s : useAuthStore.AuthState) (st : Storage)
    (hm : (email = "mock@example.com" && pw = "mockpassword") = false)
    (email2 pw2 : String) (e2 : AxiosFailure)
    (s2 : authStore.AuthState) (st2 : Storage)
    (hm2 : (email2 = "test@example.com" && pw2 = "123456") = false) :
    (useAuthStore.login email pw (.fail e) s st).1 = useAuthStore.loggedOutState ∧
    useAuthStore.storageCleared (useAuthStore.login email pw (.fail e) s st).2.1 ∧
    (useAuthStore.login email pw (.fail e) s st).2.2 =
      .error (mkJsError (errMessageOf e "Login failed")) ∧
    (authStore.login email2 pw2 (.fail e2) s2 st2).1 = { s2 with isLoading := false } ∧
    getItem "auth-store" (authStore.login email2 pw2 (.fail e2) s2 st2).2.1 =
      some (.asSnap (authStore.partialize s2)) ∧
    (authStore.login email2 pw2 (.fail e2) s2 st2).2.2 =
      .error (mkJsError (errMessageOfAS e2 "Login failed")) := by
  refine ⟨ua_login_fail_fst email pw e s st hm, ?_,
    ua_login_fail_err email pw e s st hm,
    as_login_fail_fst email2 pw2 e2 s2 st2 hm2,
    as_login_fail_store email2 pw2 e2 s2 st2 hm2,
    as_login_fail_err email2 pw2 e2 s2 st2 hm2⟩
  rw [ua_login_fail_snd email pw e s st hm]
  exact ua_logout_cleared _ _

/-- Witness for C3 (amended) at concrete non-mock credentials and failures. -/
theorem C3_failed_login_amended_witness :
    (useAuthStore.login "alice@example.com" "pw1"
        (.fail ⟨false, true, none, none, some "Network Error"⟩)
        ⟨some useAuthStore.sampleUser, some "tok0", true, false⟩ []).1 =
      useAuthStore.loggedOutState ∧
    useAuthStore.storageCleared
      (useAuthStore.login "alice@example.com" "pw1"
        (.fail ⟨false, true, none, none, some "Network Error"⟩)
        ⟨some useAuthStore.sampleUser, some "tok0", true, false⟩ []).2.1 ∧
    (useAuthStore.login "alice@example.com" "pw1"
        (.fail ⟨false, true, none, none, some "Network Error"⟩)
        ⟨some useAuthStore.sampleUser, some "tok0", true, false⟩ []).2.2 =
      .error (mkJsError (errMessageOf
        ⟨false, true, none, none, some "Network Error"⟩ "Login failed")) ∧
    (authStore.login "bob@example.com" "pw2"
        (.fail ⟨true, true, some 500, none, some "Server Error"⟩)
        authStore.sampleLoggedIn []).1 =
      { authStore.sampleLoggedIn with isLoading := false } ∧
    getItem "auth-store"
      (authStore.login "bob@example.com" "pw2"
        (.fail ⟨true, true, some 500, none, some "Server Error"⟩)
        authStore.sampleLoggedIn []).2.1 =
      some (.asSnap (authStore.partialize authStore.sampleLoggedIn)) ∧
    (authStore.login "bob@example.com" "pw2"
        (.fail ⟨true, true, some 500, none, some "Server Error"⟩)
        authStore.sampleLoggedIn []).2.2 =
      .error (mkJsError (errMessageOfAS
        ⟨true, true, some 500, none, some "Server Error"⟩ "Login failed")) :=
  C3_failed_login_amended "alice@example.com" "pw1"
    ⟨false, true, none, none, some "Network Error"⟩
    ⟨some useAuthStore.sampleUser, some "tok0", true, false⟩ [] (by decide)
    "bob@example.com" "pw2" ⟨true, true, some 500, none, some "Server Error"⟩
    authStore.sampleLoggedIn [] (by decide)

/-- C4 counterexample: a 401 response delivered to the interceptor while a
session is established leaves the Session Store's state untouched (still
authenticated, user present) and the persisted "auth-store" snapshot in
place; only the raw "token" key is removed and the browser is redirected.
The claimed `logout()` transition (user/token cleared, `isAuthenticated`
false, persistent storage cleared) does not happen. -/
theorem C4_interceptor_counterexample :
    (api.interceptOnError
        ⟨true, true, some 401, some "Unauthorized", some "Request failed with status code 401"⟩
        authStore.sampleLoggedIn
        [("auth-store", .asSnap (authStore.partialize authStore.sampleLoggedIn)),
         ("token", .rawStr "tok0")]).state = authStore.sampleLoggedIn ∧
    authStore.sampleLoggedIn.isAuthenticated = true ∧
    authStore.sampleLoggedIn.user ≠ none ∧
    getItem "auth-store"
      (api.interceptOnError
        ⟨true, true, some 401, some "Unauthorized", some "Request failed with status code 401"⟩
        authStore.sampleLoggedIn
        [("auth-store", .asSnap (authStore.partialize authStore.sampleLoggedIn)),
         ("token", .rawStr "tok0")]).storage =
      some (.asSnap (authStore.partialize authStore.sampleLoggedIn)) ∧
    (api.interceptOnError
        ⟨true, true, some 401, some "Unauthorized", some "Request failed with status code 401"⟩
        authStore.sampleLoggedIn
        [("auth-store", .asSnap (authStore.partialize authStore.sampleLoggedIn)),
         ("token", .rawStr "tok0")]).redirect = some "/login" := by
  refine ⟨rfl, rfl, by decide, by decide, rfl⟩

/-- C4 (amended): on a 401 from any endpoint the response interceptor removes
the raw "token" storage key, redirects the browser to "/login" and suppresses
the error with a never-resolving promise; it does not invoke the store's
`logout()`: the store state and the persisted "auth-store" snapshot are left
unchanged. -/
theorem C4_interceptor_amended (e : AxiosFailure) (s : authStore.AuthState)
    (st : Storage) (h : e.responseStatus = some 401) :
    (api.interceptOnError e s st).state = s ∧
    (api.interceptOnError e s st).redirect = some "/login" ∧
    (api.interceptOnError e s st).outcome = .suppressed ∧
    getItem "token" (api.interceptOnError e s st).storage = none ∧
    getItem "auth-store" (api.interceptOnError e s st).storage =
      getItem "auth-store" st := by
  unfold api.interceptOnError
  rw [if_pos h]
  exact ⟨rfl, rfl, rfl, getItem_removeItem_same _ _,
    getItem_removeItem_other _ _ _ (by decide)⟩

/-- Witness for C4 (amended) at a concrete 401 failure. -/
theorem C4_interceptor_amended_witness :
    (api.interceptOnError ⟨true, true, some 401, none, some "Unauthorized"⟩
        authStore.sampleLoggedIn [("token", .rawStr "tok0")]).state =
      authStore.sampleLoggedIn ∧
    (api.interceptOnError ⟨true, true, some 401, none, some "Unauthorized"⟩
        authStore.sampleLoggedIn [("token", .rawStr "tok0")]).redirect =
      some "/login" ∧
    (api.interceptOnError ⟨true, true, some 401, none, some "Unauthorized"⟩
        authStore.sampleLoggedIn [("token", .rawStr "tok0")]).outcome =
      .suppressed ∧
    getItem "token"
      (api.interceptOnError ⟨true, true, some 401, none, some "Unauthorized"⟩
        authStore.sampleLoggedIn [("token", .rawStr "tok0")]).storage = none ∧
    getItem "auth-store"
      (api.interceptOnError ⟨true, true, some 401, none, some "Unauthorized"⟩
        authStore.sampleLoggedIn [("token", .rawStr "tok0")]).storage =
      getItem "auth-store" [("token", .rawStr "tok0")] :=
  C4_interceptor_amended ⟨true, true, some 401, none, some "Unauthorized"⟩
    authStore.sampleLoggedIn [("token", .rawStr "tok0")] rfl

/-- C5 counterexample: a login against a backend answering 401 with body
message "Invalid email or password" rejects with the plain
`Error("Invalid email or password")`; that rejection value carries no `kind`
property at all (reading it yields none), so in particular it does not carry
`kind = InvalidCredentials` as the claim states.  (The message itself and the
session remaining logged out are as claimed.) -/
theorem C5_error_kind_counterexample :
    (authStore.login "alice@example.com" "wrong-password"
        (.fail ⟨true, true, some 401, some "Invalid email or password",
          some "Request failed with status code 401"⟩)
        authStore.initialState []).2.2 =
      .error (mkJsError "Invalid email or password") ∧
    (mkJsError "Invalid email or password").kind = none ∧
    (mkJsError "Invalid email or password").kind ≠ some ErrorKind.InvalidCredentials ∧
    (authStore.login "alice@example.com" "wrong-password"
        (.fail ⟨true, true, some 401, some "Invalid email or password",
          some "Request failed with status code 401"⟩)
        authStore.initialState []).1 = authStore.initialState := by
  refine ⟨rfl, rfl, by decide, rfl⟩

/-- C5 (amended): every failing action method of both store implementations
(login, register, loginWithGoogle, updateProfile) rejects with a plain
`Error` whose message prefers the backend-supplied message, then the error's
own message, then the generic per-operation fallback ("Login failed",
"Registration failed", "Google login failed", "Failed to update profile");
the rejection carries no `kind` field from any error taxonomy.  A failed
non-mock login from the logged-out state leaves the session logged out. -/
theorem C5_error_shape_amended (email pw : String) (e : AxiosFailure)
    (st : Storage)
    (hm : (email = "test@example.com" && pw = "123456") = false)
    (c : String) (hmg : ¬ c = "mock-google-credential")
    (email2 pw2 : String)
    (hm2 : (email2 = "mock@example.com" && pw2 = "mockpassword") = false)
    (c2 : String) (hmg2 : ¬ c2 = "mock-google-credential")
    (s : authStore.AuthState) (s2 : useAuthStore.AuthState)
    (u : useAuthStore.PartialUser) :
    (authStore.login email pw (.fail e) authStore.initialState st).2.2 =
      .error (mkJsError (errMessageOfAS e "Login failed")) ∧
    (mkJsError (errMessageOfAS e "Login failed")).kind = none ∧
    (authStore.login email pw (.fail e) authStore.initialState st).1 =
      authStore.initialState ∧
    (truthy e.responseDataMessage = true →
      errMessageOfAS e "Login failed" = e.responseDataMessage.getD "") ∧
    (truthy e.responseDataMessage = false → truthy e.errMessage = false →
      errMessageOfAS e "Login failed" = "Login failed") ∧
    (authStore.register (.fail e) s st).2.2 =
      .error (mkJsError (errMessageOfAS e "Registration failed")) ∧
    (authStore.loginWithGoogle c (.fail e) s st).2.2 =
      .error (mkJsError (errMessageOfAS e "Google login failed")) ∧
    (authStore.updateProfile (.fail e) s st).2.2 =
      .error (mkJsError (errMessageOfAS e "Failed to update profile")) ∧
    (useAuthStore.login email2 pw2 (.fail e) s2 st).2.2 =
      .error (mkJsError (errMessageOf e "Login failed")) ∧
    (useAuthStore.register (.fail e) s2 st).2.2 =
      .error (mkJsError (errMessageOf e "Registration failed")) ∧
    (useAuthStore.loginWithGoogle c2 (.fail e) s2 st).2.2 =
      .error (mkJsError (errMessageOf e "Google login failed")) ∧
    (useAuthStore.updateProfile u (.fail e) s2 st).2.2 =
      .error (mkJsError (errMessageOf e "Failed to update profile")) ∧
    (∀ msg : String, (mkJsError msg).kind = none) ∧
    ((e.isAxiosError && truthy e.responseDataMessage) = true →
      ∀ fb : String, errMessageOf e fb = e.responseDataMessage.getD "") ∧
    ((e.isAxiosError && truthy e.responseDataMessage) = false →
      (e.isError && truthy e.errMessage) = true →
      ∀ fb : String, errMessageOf e fb = e.errMessage.getD "") ∧
    ((e.isAxiosError && truthy e.responseDataMessage) = false →
      (e.isError && truthy e.errMessage) = false →
      ∀ fb : String, errMessageOf e fb = fb) := by
  refine ⟨as_login_fail_err email pw e authStore.initialState st hm, rfl,
    as_login_fail_fst email pw e authStore.initialState st hm, ?_, ?_,
    rfl, ?_, rfl, ua_login_fail_err email2 pw2 e s2 st hm2, rfl, ?_, rfl,
    fun _ => rfl, ?_, ?_, ?_⟩
  · intro h1
    simp [errMessageOfAS, h1]
  · intro h1 h2
    simp [errMessageOfAS, h1, h2]
  · simp [authStore.loginWithGoogle, hmg]
  · simp [useAuthStore.loginWithGoogle, hmg2]
  · intro h1 fb
    simp [errMessageOf, h1]
  · intro h1 h2 fb
    simp [errMessageOf, h1, h2]
  · intro h1 h2 fb
    simp [errMessageOf, h1, h2]

/-- Witness for C5 (amended) at the 401 bad-credentials scenario, with
concrete non-mock inputs for every method of both stores. -/
theorem C5_error_shape_amended_witness :
    (authStore.login "alice@example.com" "wrong-password"
        (.fail ⟨true, true, some 401, some "Invalid email or password",
          some "Request failed with status code 401"⟩)
        authStore.initialState []).2.2 =
      .error (mkJsError (errMessageOfAS
        ⟨true, true, some 401, some "Invalid email or password",
          some "Request failed with status code 401"⟩ "Login failed")) ∧
    (authStore.login "alice@example.com" "wrong-password"
        (.fail ⟨true, true, some 401, some "Invalid email or password",
          some "Request failed with status code 401"⟩)
        authStore.initialState []).1 = authStore.initialState ∧
    (authStore.loginWithGoogle "server-google-credential"
        (.fail ⟨true, true, some 401, some "Invalid email or password",
          some "Request failed with status code 401"⟩)
        authStore.sampleLoggedIn []).2.2 =
      .error (mkJsError (errMessageOfAS
        ⟨true, true, some 401, some "Invalid email or password",
          some "Request failed with status code 401"⟩ "Google login failed")) ∧
    (useAuthStore.login "bob@example.com" "pw2"
        (.fail ⟨true, true, some 401, some "Invalid email or password",
          some "Request failed with status code 401"⟩)
        ⟨some useAuthStore.sampleUser, some "tok0", true, false⟩ []).2.2 =
      .error (mkJsError (errMessageOf
        ⟨true, true, some 401, some "Invalid email or password",
          some "Request failed with status code 401"⟩ "Login failed")) ∧
    (useAuthStore.loginWithGoogle "another-credential"
        (.fail ⟨true, true, some 401, some "Invalid email or password",
          some "Request failed with status code 401"⟩)
        ⟨some useAuthStore.sampleUser, some "tok0", true, false⟩ []).2.2 =
      .error (mkJsError (errMessageOf
        ⟨true, true, some 401, some "Invalid email or password",
          some "Request failed with status code 401"⟩ "Google login failed")) := by
  obtain ⟨h1, h2, h3, h4, h5, h6, h7, h8, h9, h10, h11, h12, h13, h14, h15, h16⟩ :=
    C5_error_shape_amended "alice@example.com" "wrong-password"
      ⟨true, true, some 401, some "Invalid email or password",
        some "Request failed with status code 401"⟩ [] (by decide)
      "server-google-credential" (by decide)
      "bob@example.com" "pw2" (by decide)
      "another-credential" (by decide)
      authStore.sampleLoggedIn
      ⟨some useAuthStore.sampleUser, some "tok0", true, false⟩ {}
  exact ⟨h1, h3, h7, h9, h11⟩

/-- C9 counterexample: `login("test@example.com", "123456")` is intercepted
by the hardcoded mock branch of `auth-store.ts`: even against a backend that
returns token "abc", the resulting session token is "mock-token", not "abc"
as claimed. -/
theorem C9_mock_login_counterexample :
    (authStore.login "test@example.com" "123456"
        (.ok ⟨"abc", ⟨"1", "Demo User", "test@example.com", none, none⟩⟩)
        authStore.initialState []).1.token = some "mock-token" ∧
    (some "mock-token" : Option String) ≠ some "abc" := by
  refine ⟨rfl, by decide⟩

/-- C9 (amended): `login("test@example.com", "123456")` takes the mock
branch regardless of the backend's reply: the session becomes
`isAuthenticated = true`, token "mock-token", user id "1" / name
"Demo User", the persisted "auth-store" snapshot equals the `partialize`d
in-memory triple, and the raw "token" key holds "mock-token". -/
theorem C9_mock_login_amended (reply : BackendReply authStore.LoginResponse)
    (s : authStore.AuthState) (st : Storage) :
    (authStore.login "test@example.com" "123456" reply s st).1 =
      ⟨some (authStore.mockUser "test@example.com"), some "mock-token",
        true, false⟩ ∧
    getItem "auth-store" (authStore.login "test@example.com" "123456" reply s st).2.1 =
      some (.asSnap (authStore.partialize
        (authStore.login "test@example.com" "123456" reply s st).1)) ∧
    getItem "token" (authStore.login "test@example.com" "123456" reply s st).2.1 =
      some (.rawStr "mock-token") := by
  refine ⟨rfl, rfl, rfl⟩

end PortfolioAuth
